import Mathlib

/-!
# Worst-fit malloc: a shallow embedding of `wf_malloc.c`

The C translation unit is embedded function by function.  Pointers are machine
addresses (`Nat`), the null pointer is address `0`.  `size_t` is 64 bits wide
(LP64), so `sizeof(MemoryBlock)` is four pointers plus one `size_t`, 40 bytes.

Memory is split into two address-indexed maps: the block headers stored at an
address, and the payload bytes.  An access through the null pointer is
undefined behaviour in C; the embedding reports it as `Fault.nullDeref`.

The helper functions `wf_exheap_available_block`, `wf_freelist_offer`,
`wf_freelist_poll`, `wf_freelist_remove`, `block_split`, `block_merge`,
`block_consumable`, `block_consume` and the public `wf_free` have bodies that
consist of a `TODO` comment and a constant return value; they are embedded as
written.
-/

namespace WfMalloc

/-- Width of `size_t`: arithmetic on sizes is taken modulo this value. -/
def SIZE_MODULUS : Nat := 2 ^ 64

/-- Value of `sizeof(MemoryBlock)` on LP64: two pairs of pointers and a `size_t`;
the flexible array member `data` adds nothing. -/
def sizeof_MemoryBlock : Nat := 40

/-- Header of a memory block, `struct _memblock` without its payload. -/
structure MemoryBlock where
  adjacent_prev : Nat
  adjacent_next : Nat
  available_prev : Nat
  available_next : Nat
  size : Nat
deriving DecidableEq, Repr

/-- The `Allocator` record of `wf_malloc.h`. -/
structure Allocator where
  heap : Nat
  exheap : Nat → Nat
  bound : Int
  freelist : Nat

/-- Addressable memory: block headers and payload bytes, both by address. -/
structure Heap where
  hdr : Nat → MemoryBlock
  byte : Nat → Nat

/-- Undefined behaviour the embedding detects. -/
inductive Fault where
  | nullDeref
deriving DecidableEq, Repr

/-- Read of a block header through a pointer. -/
def load (h : Heap) (p : Nat) : Except Fault MemoryBlock :=
  if p = 0 then Except.error Fault.nullDeref else Except.ok (h.hdr p)

/-- Write of a whole block header through a pointer. -/
def store (h : Heap) (p : Nat) (b : MemoryBlock) : Except Fault Heap :=
  if p = 0 then Except.error Fault.nullDeref
  else Except.ok ⟨fun q => if q = p then b else h.hdr q, h.byte⟩

/-- Library `memset(p, c, n)` on the payload bytes, for a non-null `p`; the fill
value is converted to `unsigned char`.  Headers live in their own map and are
not part of the payload bytes. -/
def memset (h : Heap) (p c n : Nat) : Heap :=
  ⟨h.hdr, fun x => if p ≤ x ∧ x < p + n then c % 256 else h.byte x⟩

/-- Library `memmove(dst, src, n)` on the payload bytes: every destination byte
receives the value the source byte had before the call. -/
def memmove (h : Heap) (dst src n : Nat) : Heap :=
  ⟨h.hdr, fun x => if dst ≤ x ∧ x < dst + n then h.byte (src + (x - dst)) else h.byte x⟩

/-- Macro `REF_BLOCK`: the header address in front of an allocated address.  An
address smaller than the header size has no header in front of it; the
subtraction then yields the null address and the first access faults. -/
def REF_BLOCK (p : Nat) : Nat := p - sizeof_MemoryBlock

/-- Macro `REF_BLOCK_DATA`: the payload address of a block. -/
def REF_BLOCK_DATA (b : Nat) : Nat := b + sizeof_MemoryBlock

/-- Macro `REF_BLOCK_DATA_SIZE`. -/
def REF_BLOCK_DATA_SIZE (b : MemoryBlock) : Nat := b.size

/-- Macro `IS_BLOCK_AVAILABLE`: `!b->available.prev && !b->available.next`. -/
def IS_BLOCK_AVAILABLE (b : MemoryBlock) : Bool :=
  (b.available_prev == 0) && (b.available_next == 0)

/-- Macro `BLOCK_MARK_UNAVAILABLE` on a header value: both availability links
are set to null. -/
def BLOCK_MARK_UNAVAILABLE (b : MemoryBlock) : MemoryBlock :=
  ⟨b.adjacent_prev, b.adjacent_next, 0, 0, b.size⟩

/-- Macro `BLOCK_MARK_UNAVAILABLE` applied through a block pointer. -/
def mark_unavailable (h : Heap) (p : Nat) : Except Fault Heap :=
  match load h p with
  | Except.error e => Except.error e
  | Except.ok b => store h p (BLOCK_MARK_UNAVAILABLE b)

/-- Function `wf_allocator_init`. -/
def wf_allocator_init (heap_pointer : Nat) (extend_heap : Nat → Nat) : Allocator :=
  ⟨heap_pointer, extend_heap, 0, 0⟩

/-- Function `wf_exheap_available_block`: the body is `return NULL`. -/
def wf_exheap_available_block (a : Allocator) (h : Heap) (_size : Nat) :
    Nat × Allocator × Heap :=
  (0, a, h)

/-- Function `wf_freelist_offer`: the body is empty. -/
def wf_freelist_offer (a : Allocator) (h : Heap) (_block : Nat) : Allocator × Heap :=
  (a, h)

/-- Function `wf_freelist_poll`: the body is `return NULL`. -/
def wf_freelist_poll (a : Allocator) (h : Heap) : Nat × Allocator × Heap :=
  (0, a, h)

/-- Function `wf_freelist_remove`: the body is empty. -/
def wf_freelist_remove (a : Allocator) (h : Heap) (_block : Nat) : Allocator × Heap :=
  (a, h)

/-- Function `block_split`: the body is `return NULL`. -/
def block_split (h : Heap) (_block _offset : Nat) : Nat × Heap :=
  (0, h)

/-- Function `block_merge`: the body is `return NULL`. -/
def block_merge (h : Heap) (_block : Nat) : Nat × Heap :=
  (0, h)

/-- Function `block_consumable`: the body is `return 0`. -/
def block_consumable (_h : Heap) (_block _new_size : Nat) : Int :=
  0

/-- Function `block_consume`: the body is empty. -/
def block_consume (h : Heap) (_block _new_size : Nat) : Heap :=
  h

/-- Function `wf_free`: the body is empty. -/
def wf_free (a : Allocator) (h : Heap) (_poi : Nat) : Allocator × Heap :=
  (a, h)

/-- Guard of `wf_malloc`:
`!allocator->freelist || REF_BLOCK_DATA_SIZE(allocator->freelist) < size`. -/
def malloc_must_extend (a : Allocator) (h : Heap) (size : Nat) : Except Fault Bool :=
  if a.freelist = 0 then Except.ok true
  else
    match load h a.freelist with
    | Except.error e => Except.error e
    | Except.ok b => Except.ok (decide (REF_BLOCK_DATA_SIZE b < size))

/-- Tail of `wf_malloc` after a target was obtained: mark the target
unavailable, offer the residual, return the payload address. -/
def malloc_finish (a : Allocator) (h : Heap) (target residual : Nat) :
    Except Fault (Nat × Allocator × Heap) :=
  match mark_unavailable h target with
  | Except.error e => Except.error e
  | Except.ok h1 =>
    let r := wf_freelist_offer a h1 residual
    Except.ok (REF_BLOCK_DATA target, r.1, r.2)

/-- The extension path of `wf_malloc`: obtain a block from the heap extension,
return `NULL` when there is none, otherwise split it and finish. -/
def malloc_extend (a : Allocator) (h : Heap) (size : Nat) :
    Except Fault (Nat × Allocator × Heap) :=
  let e := wf_exheap_available_block a h size
  if e.1 = 0 then Except.ok (0, e.2.1, e.2.2)
  else
    let s := block_split e.2.2 e.1 size
    malloc_finish e.2.1 s.2 e.1 s.1

/-- Function `wf_malloc`. -/
def wf_malloc (a : Allocator) (h : Heap) (size : Nat) :
    Except Fault (Nat × Allocator × Heap) :=
  match malloc_must_extend a h size with
  | Except.error e => Except.error e
  | Except.ok true => malloc_extend a h size
  | Except.ok false =>
    let p := wf_freelist_poll a h
    let s := block_split p.2.2 p.1 size
    if s.1 = 0 then
      let m := block_merge s.2 s.1
      let o := wf_freelist_offer p.2.1 m.2 p.1
      malloc_extend o.1 o.2 size
    else
      malloc_finish p.2.1 s.2 p.1 s.1

/-- Function `wf_calloc`; the product `num * size` is computed in `size_t`. -/
def wf_calloc (a : Allocator) (h : Heap) (num size : Nat) :
    Except Fault (Nat × Allocator × Heap) :=
  let bytes := (num * size) % SIZE_MODULUS
  match wf_malloc a h bytes with
  | Except.error e => Except.error e
  | Except.ok r =>
    if r.1 = 0 then Except.ok (0, r.2.1, r.2.2)
    else Except.ok (r.1, r.2.1, memset r.2.2 r.1 0 bytes)

/-- Forward step of `wf_realloc` (the `if` ahead of the snapshot): when the next
adjacent block exists and `IS_BLOCK_AVAILABLE` holds for it, it is removed from
the freelist and `block_merge` is called on it. -/
def realloc_forward (a : Allocator) (h : Heap) (poimeta : Nat) :
    Except Fault (Allocator × Heap) := do
  let pm ← load h poimeta
  if pm.adjacent_next = 0 then
    pure (a, h)
  else
    let nx ← load h pm.adjacent_next
    if IS_BLOCK_AVAILABLE nx then
      let r := wf_freelist_remove a h pm.adjacent_next
      let pm1 ← load r.2 poimeta
      let m := block_merge r.2 pm1.adjacent_next
      pure (r.1, m.2)
    else
      pure (a, h)

/-- Snapshot step of `wf_realloc`:
`if (!poimeta->adjacent.prev) memcpy(&prev_hard_copy, poimeta->adjacent.prev, ...)`.
The argument `prev_hard_copy` is the content of the uninitialised local before
the statement; the result is its content after it. -/
def realloc_snapshot (h : Heap) (poimeta : Nat) (prev_hard_copy : MemoryBlock) :
    Except Fault MemoryBlock := do
  let pm ← load h poimeta
  if pm.adjacent_prev = 0 then
    load h pm.adjacent_prev
  else
    pure prev_hard_copy

/-- Undo branch of `wf_realloc`, taken when the inner `wf_malloc` returned
`NULL`. -/
def realloc_undo (a : Allocator) (h : Heap) (target poimeta old_size : Nat)
    (prev_hard_copy : MemoryBlock) : Except Fault (Nat × Allocator × Heap) := do
  let r := wf_freelist_remove a h target
  let r1 ← if target ≠ poimeta then do
      let h1 ← store r.2 target prev_hard_copy
      pure (wf_freelist_offer r.1 h1 target)
    else
      pure r
  let pm ← load r1.2 poimeta
  let r2 := if pm.size ≠ old_size then
      let s := block_split r1.2 poimeta old_size
      wf_freelist_offer r1.1 s.2 s.1
    else
      r1
  let h3 ← mark_unavailable r2.2 poimeta
  pure (0, r2.1, h3)

/-- Function `wf_realloc`.  The extra argument `junk` is the indeterminate
initial content of the local `prev_hard_copy`. -/
def wf_realloc (a : Allocator) (h : Heap) (poi new_size : Nat) (junk : MemoryBlock) :
    Except Fault (Nat × Allocator × Heap) :=
  if poi = 0 then
    wf_malloc a h new_size
  else do
    let poimeta := REF_BLOCK poi
    let pm ← load h poimeta
    let old_size := pm.size
    if block_consumable h poimeta new_size ≠ 0 then
      pure (poi, a, block_consume h poimeta new_size)
    else
      let f ← realloc_forward a h poimeta
      let prev_hard_copy ← realloc_snapshot f.2 poimeta junk
      let m := block_merge f.2 poimeta
      let target := m.1
      let r := if target ≠ poimeta then wf_freelist_remove f.1 m.2 target else (f.1, m.2)
      let o := wf_freelist_offer r.1 r.2 target
      let n ← wf_malloc o.1 o.2 new_size
      if n.1 = 0 then
        realloc_undo n.2.1 n.2.2 target poimeta old_size prev_hard_copy
      else
        pure (n.1, n.2.1, memmove n.2.2 n.1 poi old_size)

/-- Heap in which every header is zero and every byte is zero. -/
def blankHeap : Heap := ⟨fun _ => ⟨0, 0, 0, 0, 0⟩, fun _ => 0⟩

/-- Heap holding the listed headers at the listed addresses, blank elsewhere. -/
def heapOf (blocks : List (Nat × MemoryBlock)) : Heap :=
  ⟨fun p => match blocks.lookup p with
            | some b => b
            | none => ⟨0, 0, 0, 0, 0⟩,
   fun _ => 0⟩

/-- Extension hook that grants exactly what is requested. -/
def grantAll : Nat → Nat := fun n => n

/-- Extension hook of an exhausted backing store: it grants nothing. -/
def grantNone : Nat → Nat := fun _ => 0

/-- A block that is ALLOCATED in the sense of the header comment: both
availability links are null. -/
def allocatedBlock (prev next size : Nat) : MemoryBlock := ⟨prev, next, 0, 0, size⟩

/-- A block that is the single member of the freelist: both availability links
point to the block itself. -/
def freeBlockAt (self prev next size : Nat) : MemoryBlock := ⟨prev, next, self, self, size⟩

/-- Allocator and heap with two adjacent ALLOCATED blocks of 16 payload bytes,
at 4096 and 4152, an empty freelist and an exhausted backing store. -/
def twoBlockAllocator : Allocator := ⟨4096, grantNone, 112, 0⟩

/-- Heap of `twoBlockAllocator`. -/
def twoBlockHeap : Heap :=
  heapOf [(4096, allocatedBlock 0 4152 16), (4152, allocatedBlock 4096 0 16)]

/-- Allocator whose heap holds one ALLOCATED block of 16 payload bytes at 4096
(payload address 4136); nothing else is live and the freelist is empty. -/
def oneBlockAllocator : Allocator := ⟨4096, grantAll, 56, 0⟩

/-- Heap of `oneBlockAllocator`. -/
def oneBlockHeap : Heap := heapOf [(4096, allocatedBlock 0 0 16)]

/-- Allocator whose freelist holds exactly one block, of 100 payload bytes, at
4096. -/
def oneFreeAllocator : Allocator := ⟨4096, grantAll, 140, 4096⟩

/-- Heap of `oneFreeAllocator`. -/
def oneFreeHeap : Heap := heapOf [(4096, freeBlockAt 4096 0 0 100)]

/-- Allocator with an ALLOCATED block of 10 payload bytes at 4096 followed by a
FREE block of 100 payload bytes at 4146, which is the only freelist member. -/
def growAllocator : Allocator := ⟨4096, grantAll, 190, 4146⟩

/-- Heap of `growAllocator`. -/
def growHeap : Heap :=
  heapOf [(4096, allocatedBlock 0 4146 10), (4146, freeBlockAt 4146 4096 0 100)]

/-- Allocator with an exhausted backing store whose freelist head, at 4096, has
8 payload bytes. -/
def smallFreeAllocator : Allocator := ⟨4096, grantNone, 48, 4096⟩

/-- Heap of `smallFreeAllocator`. -/
def smallFreeHeap : Heap := heapOf [(4096, freeBlockAt 4096 0 0 8)]

/-- A header value used as the indeterminate content of an uninitialised local. -/
def junkHeader : MemoryBlock := ⟨1, 2, 3, 4, 5⟩

/-- Heap with a FREE block of 10 payload bytes at 4096 (its availability links
point to itself) followed by an ALLOCATED block of 100 payload bytes at 4146. -/
def freePredHeap : Heap :=
  heapOf [(4096, freeBlockAt 4096 0 4146 10), (4146, allocatedBlock 4096 0 100)]

/-- Heap with a single block of 100 payload bytes at 4096. -/
def wideBlockHeap : Heap := heapOf [(4096, allocatedBlock 0 0 100)]

/-! ## The test harness, `wf_malloc_test.c` -/

/-- Constant `PAGE_SIZE` of the test harness. -/
def PAGE_SIZE : Nat := 4096

/-- Constant `ENOMEM` of `errno.h`. -/
def ENOMEM : Nat := 12

/-- Globals that `extend_heap` reads and writes: `physmem_length`,
`physmem_size` and `errno`. -/
structure Physmem where
  physmem_length : Nat
  physmem_size : Nat
  errno : Nat
deriving DecidableEq, Repr

/-- Loop of `extend_heap`,
`for (int i = 0; size < actual; ++i) actual = PAGE_SIZE * i;`, entered with the
counter `i` and the current content of `actual`.  The result is the content of
`actual` when the loop is left, or `none` when the fuel is used up first. -/
def extend_heap_loop (size : Nat) : Nat → Nat → Nat → Option Nat
  | 0, _, _ => none
  | fuel + 1, i, actual =>
    if size < actual then
      extend_heap_loop size fuel (i + 1) ((PAGE_SIZE * i) % SIZE_MODULUS)
    else
      some actual

/-- Function `extend_heap` of the test harness.  The argument `actual0` is the
indeterminate initial content of the local `actual`; sums are taken in
`size_t`.  The result is the returned length with the globals after the call,
or `none` when the loop did not finish within the fuel. -/
def extend_heap (fuel : Nat) (m : Physmem) (size actual0 : Nat) : Option (Nat × Physmem) :=
  if size < 0 then
    some (0, m)
  else
    match extend_heap_loop size fuel 0 actual0 with
    | none => none
    | some actual =>
      let aligned := (m.physmem_size + actual) % SIZE_MODULUS
      let unaligned := (m.physmem_size + size) % SIZE_MODULUS
      if aligned > m.physmem_length then
        if unaligned > m.physmem_length then
          some (0, ⟨m.physmem_length, m.physmem_size, ENOMEM⟩)
        else
          some (size, ⟨m.physmem_length, (m.physmem_size + size) % SIZE_MODULUS, m.errno⟩)
      else
        some (actual, ⟨m.physmem_length, (m.physmem_size + actual) % SIZE_MODULUS, m.errno⟩)

/-- Globals of the harness before the first extension: 65536 bytes of physical
memory, none of them handed out. -/
def freshPhysmem : Physmem := ⟨65536, 0, 0⟩

/-! ## Call logs

The functions below repeat `wf_allocator_init` and `wf_malloc` statement by
statement and return, next to the result, the calls that were made, in order.
A call of a helper function is logged by the caller; the helper bodies make no
call themselves. -/

/-- Calls an allocator function can make: a call through the function pointer
`allocator->exheap`, or a call of one of the helper functions. -/
inductive Call where
  | exheap (requested : Nat)
  | wf_exheap_available_block (size : Nat)
  | wf_freelist_offer (block : Nat)
  | wf_freelist_poll
  | wf_freelist_remove (block : Nat)
  | block_split (block offset : Nat)
  | block_merge (block : Nat)
deriving DecidableEq, Repr

/-- Function `wf_allocator_init` with its call log: the body consists of four
assignments and calls nothing. -/
def wf_allocator_init_logged (heap_pointer : Nat) (extend_heap : Nat → Nat) :
    Allocator × List Call :=
  (⟨heap_pointer, extend_heap, 0, 0⟩, [])

/-- Function `wf_exheap_available_block` with its call log: the body is
`return NULL` and calls nothing, `allocator->exheap` included. -/
def wf_exheap_available_block_logged (a : Allocator) (h : Heap) (_size : Nat) :
    (Nat × Allocator × Heap) × List Call :=
  ((0, a, h), [])

/-- Tail of `wf_malloc` with its call log: `wf_freelist_offer` is called once
the target has been marked. -/
def malloc_finish_logged (a : Allocator) (h : Heap) (target residual : Nat) :
    Except Fault (Nat × Allocator × Heap) × List Call :=
  match mark_unavailable h target with
  | Except.error e => (Except.error e, [])
  | Except.ok h1 =>
    let r := wf_freelist_offer a h1 residual
    (Except.ok (REF_BLOCK_DATA target, r.1, r.2), [Call.wf_freelist_offer residual])

/-- The extension path of `wf_malloc` with its call log. -/
def malloc_extend_logged (a : Allocator) (h : Heap) (size : Nat) :
    Except Fault (Nat × Allocator × Heap) × List Call :=
  let e := wf_exheap_available_block_logged a h size
  if e.1.1 = 0 then
    (Except.ok (0, e.1.2.1, e.1.2.2), Call.wf_exheap_available_block size :: e.2)
  else
    let s := block_split e.1.2.2 e.1.1 size
    let f := malloc_finish_logged e.1.2.1 s.2 e.1.1 s.1
    (f.1, Call.wf_exheap_available_block size :: e.2
            ++ Call.block_split e.1.1 size :: f.2)

/-- Function `wf_malloc` with its call log. -/
def wf_malloc_logged (a : Allocator) (h : Heap) (size : Nat) :
    Except Fault (Nat × Allocator × Heap) × List Call :=
  match malloc_must_extend a h size with
  | Except.error e => (Except.error e, [])
  | Except.ok true => malloc_extend_logged a h size
  | Except.ok false =>
    let p := wf_freelist_poll a h
    let s := block_split p.2.2 p.1 size
    if s.1 = 0 then
      let m := block_merge s.2 s.1
      let o := wf_freelist_offer p.2.1 m.2 p.1
      let x := malloc_extend_logged o.1 o.2 size
      (x.1, Call.wf_freelist_poll :: Call.block_split p.1 size :: Call.block_merge s.1
              :: Call.wf_freelist_offer p.1 :: x.2)
    else
      let f := malloc_finish_logged p.2.1 s.2 p.1 s.1
      (f.1, Call.wf_freelist_poll :: Call.block_split p.1 size :: f.2)

/-! ## General facts about the embedded functions -/

theorem load_of_ne_zero (h : Heap) (p : Nat) (hp : p ≠ 0) :
    load h p = Except.ok (h.hdr p) := by
  simp [load, hp]

theorem malloc_extend_null (a : Allocator) (h : Heap) (size : Nat) :
    malloc_extend a h size = Except.ok (0, a, h) := by
  simp [malloc_extend, wf_exheap_available_block]

theorem wf_malloc_null (a : Allocator) (h : Heap) (size : Nat) :
    wf_malloc a h size = Except.ok (0, a, h) := by
  unfold wf_malloc malloc_must_extend
  by_cases hf : a.freelist = 0
  · simp [hf, malloc_extend_null]
  · simp only [hf, if_false, load_of_ne_zero h a.freelist hf]
    by_cases hs : REF_BLOCK_DATA_SIZE (h.hdr a.freelist) < size
    · simp [hs, malloc_extend_null]
    · simp [hs, malloc_extend_null, wf_freelist_poll, block_split, block_merge,
        wf_freelist_offer]

theorem wf_calloc_null (a : Allocator) (h : Heap) (num size : Nat) :
    wf_calloc a h num size = Except.ok (0, a, h) := by
  simp [wf_calloc, wf_malloc_null]

theorem wf_allocator_init_logged_fst (heap_pointer : Nat) (extend_heap : Nat → Nat) :
    (wf_allocator_init_logged heap_pointer extend_heap).1
      = wf_allocator_init heap_pointer extend_heap :=
  rfl

theorem wf_exheap_available_block_logged_fst (a : Allocator) (h : Heap) (size : Nat) :
    (wf_exheap_available_block_logged a h size).1 = wf_exheap_available_block a h size :=
  rfl

theorem malloc_finish_logged_fst (a : Allocator) (h : Heap) (target residual : Nat) :
    (malloc_finish_logged a h target residual).1 = malloc_finish a h target residual := by
  unfold malloc_finish_logged malloc_finish
  cases mark_unavailable h target <;> rfl

theorem malloc_extend_logged_fst (a : Allocator) (h : Heap) (size : Nat) :
    (malloc_extend_logged a h size).1 = malloc_extend a h size := by
  simp [malloc_extend_logged, malloc_extend, wf_exheap_available_block_logged,
    wf_exheap_available_block]

theorem wf_malloc_logged_fst (a : Allocator) (h : Heap) (size : Nat) :
    (wf_malloc_logged a h size).1 = wf_malloc a h size := by
  unfold wf_malloc_logged wf_malloc
  cases hg : malloc_must_extend a h size with
  | error e => rfl
  | ok b =>
    cases b with
    | true => exact malloc_extend_logged_fst a h size
    | false =>
      simp [wf_freelist_poll, block_split, block_merge, wf_freelist_offer,
        malloc_extend_logged_fst]

/-- On an allocator whose freelist head is large enough the log of `wf_malloc`
starts with the poll: the log tells the two branches of `wf_malloc` apart. -/
theorem wf_malloc_logged_polls_when_head_suffices :
    (wf_malloc_logged oneFreeAllocator oneFreeHeap 16).2
      = [Call.wf_freelist_poll, Call.block_split 0 16, Call.block_merge 0,
          Call.wf_freelist_offer 0, Call.wf_exheap_available_block 16] :=
  rfl

theorem realloc_forward_unchanged (a : Allocator) (h : Heap) (poimeta : Nat)
    (hp : poimeta ≠ 0) : realloc_forward a h poimeta = Except.ok (a, h) := by
  unfold realloc_forward
  simp only [load_of_ne_zero h poimeta hp, bind, Except.bind, pure, Except.pure]
  by_cases hn : (h.hdr poimeta).adjacent_next = 0
  · simp [hn]
  · simp only [hn, if_false, load_of_ne_zero h _ hn]
    by_cases hav : IS_BLOCK_AVAILABLE (h.hdr (h.hdr poimeta).adjacent_next) = true
    · simp [hav, wf_freelist_remove, block_merge, load_of_ne_zero h poimeta hp]
    · simp [hav]

theorem realloc_snapshot_of_prev (h : Heap) (poimeta : Nat) (junk : MemoryBlock)
    (hp : poimeta ≠ 0) (hprev : (h.hdr poimeta).adjacent_prev ≠ 0) :
    realloc_snapshot h poimeta junk = Except.ok junk := by
  unfold realloc_snapshot
  simp [load_of_ne_zero h poimeta hp, bind, Except.bind, pure, Except.pure, hprev]

theorem realloc_snapshot_of_no_prev (h : Heap) (poimeta : Nat) (junk : MemoryBlock)
    (hp : poimeta ≠ 0) (hprev : (h.hdr poimeta).adjacent_prev = 0) :
    realloc_snapshot h poimeta junk = Except.error Fault.nullDeref := by
  unfold realloc_snapshot
  simp only [load_of_ne_zero h poimeta hp, bind, Except.bind]
  simp [hprev, load]

theorem realloc_undo_null_target (a : Allocator) (h : Heap) (poimeta old_size : Nat)
    (c : MemoryBlock) (hp : poimeta ≠ 0) :
    realloc_undo a h 0 poimeta old_size c = Except.error Fault.nullDeref := by
  unfold realloc_undo
  have hne : (0 : Nat) ≠ poimeta := fun e => hp e.symm
  simp [wf_freelist_remove, store, bind, Except.bind, hne]

theorem wf_realloc_faults (a : Allocator) (h : Heap) (poi new_size : Nat)
    (junk : MemoryBlock) (hpoi : poi ≠ 0) :
    wf_realloc a h poi new_size junk = Except.error Fault.nullDeref := by
  unfold wf_realloc
  simp only [hpoi, if_false]
  by_cases hp : REF_BLOCK poi = 0
  · simp [hp, load, bind, Except.bind]
  · simp only [load_of_ne_zero h _ hp, bind, Except.bind, block_consumable,
      realloc_forward_unchanged a h _ hp]
    by_cases hprev : (h.hdr (REF_BLOCK poi)).adjacent_prev = 0
    · simp [realloc_snapshot_of_no_prev h _ junk hp hprev]
    · have hne : (0 : Nat) ≠ REF_BLOCK poi := fun e => hp e.symm
      simp [realloc_snapshot_of_prev h _ junk hp hprev, block_merge, wf_freelist_remove,
        wf_freelist_offer, wf_malloc_null, realloc_undo_null_target _ _ _ _ _ hp, hne]

/-! ## The claims -/

/-- C1: on the allocator produced by `wf_allocator_init` with a hook that grants
every request in full, `wf_malloc` of 16 bytes returns the null address and
leaves allocator and heap as they were; the claim requires a non-null
address. -/
theorem wf_malloc_fresh_returns_null :
    (∀ n, n ≤ grantAll n) ∧ (0 : Nat) < 16 ∧
      wf_malloc (wf_allocator_init 4096 grantAll) blankHeap 16
        = Except.ok (0, wf_allocator_init 4096 grantAll, blankHeap) :=
  ⟨fun n => Nat.le_refl n, by decide, wf_malloc_null _ _ _⟩

/-- C2: when the extension hook grants 0 bytes for every request and the guard
of `wf_malloc` finds the freelist unable to satisfy the request (empty, or its
head smaller than the request), `wf_malloc` and `wf_calloc` both return the null
address and hand back the allocator record and the heap exactly as they
were, so `heap`, `bound`, `freelist` and every block header are unchanged. -/
theorem wf_malloc_wf_calloc_exhausted (a : Allocator) (h : Heap) (num size : Nat)
    (_hgrant : ∀ n, a.exheap n = 0)
    (_hm : malloc_must_extend a h size = Except.ok true)
    (_hc : malloc_must_extend a h ((num * size) % SIZE_MODULUS) = Except.ok true) :
    wf_malloc a h size = Except.ok (0, a, h) ∧
      wf_calloc a h num size = Except.ok (0, a, h) :=
  ⟨wf_malloc_null a h size, wf_calloc_null a h num size⟩

/-- Witness of C2: an exhausted allocator whose only free block has 8 bytes,
asked for 16 bytes and for 4 objects of 16 bytes. -/
theorem wf_malloc_wf_calloc_exhausted_witness :
    (∀ n, smallFreeAllocator.exheap n = 0) ∧
      malloc_must_extend smallFreeAllocator smallFreeHeap 16 = Except.ok true ∧
      malloc_must_extend smallFreeAllocator smallFreeHeap ((4 * 16) % SIZE_MODULUS)
        = Except.ok true ∧
      wf_malloc smallFreeAllocator smallFreeHeap 16
        = Except.ok (0, smallFreeAllocator, smallFreeHeap) ∧
      wf_calloc smallFreeAllocator smallFreeHeap 4 16
        = Except.ok (0, smallFreeAllocator, smallFreeHeap) :=
  ⟨fun _ => rfl, rfl, rfl,
    wf_malloc_wf_calloc_exhausted smallFreeAllocator smallFreeHeap 4 16
      (fun _ => rfl) rfl rfl⟩

/-- C3: the block at 4152 (payload 4192) is ALLOCATED, `block_consumable` reports
that it cannot grow in place, the backing store grants nothing, and
`block_merge` hands back the null address; `wf_realloc` to 100 bytes then does
not return at all with the heap intact: its undo branch copies the snapshot
through the null `target`, whatever the uninitialised snapshot held.  The claim
requires a null return with the heap state as before the call. -/
theorem wf_realloc_exhausted_faults :
    twoBlockHeap.hdr 4152 = allocatedBlock 4096 0 16 ∧
      block_consumable twoBlockHeap 4152 100 = 0 ∧
      (∀ n, twoBlockAllocator.exheap n = 0) ∧
      (block_merge twoBlockHeap 4152).1 = 0 ∧
      (∀ junk : MemoryBlock,
        realloc_undo twoBlockAllocator twoBlockHeap 0 4152 16 junk
          = Except.error Fault.nullDeref) ∧
      ∀ junk : MemoryBlock,
        wf_realloc twoBlockAllocator twoBlockHeap 4192 100 junk
          = Except.error Fault.nullDeref :=
  ⟨rfl, rfl, fun _ => rfl, rfl,
    fun junk => realloc_undo_null_target _ _ _ _ junk (by decide),
    fun junk => wf_realloc_faults _ _ _ _ junk (by decide)⟩

/-- With one live allocation of 16 bytes at payload address 4136, set up by hand,
and nothing else, `wf_free` of that address changes neither the allocator
record nor the heap (the freelist stays empty), and the following `wf_malloc`
of 16 bytes returns the null address. -/
theorem wf_free_then_wf_malloc_returns_null :
    oneBlockHeap.hdr (REF_BLOCK 4136) = allocatedBlock 0 0 16 ∧
      wf_free oneBlockAllocator oneBlockHeap 4136 = (oneBlockAllocator, oneBlockHeap) ∧
      (wf_free oneBlockAllocator oneBlockHeap 4136).1.freelist = 0 ∧
      wf_malloc (wf_free oneBlockAllocator oneBlockHeap 4136).1
          (wf_free oneBlockAllocator oneBlockHeap 4136).2 16
        = Except.ok (0, oneBlockAllocator, oneBlockHeap) :=
  ⟨rfl, rfl, rfl, wf_malloc_null _ _ _⟩

/-- C5: with a freelist that holds one FREE block of 100 bytes at 4096,
`wf_freelist_poll` returns the null address and leaves the block on the
freelist; the claim requires a null result only for an empty freelist and
requires the returned block to leave the freelist. -/
theorem wf_freelist_poll_nonempty_returns_null :
    oneFreeAllocator.freelist = 4096 ∧
      oneFreeHeap.hdr 4096 = freeBlockAt 4096 0 0 100 ∧
      wf_freelist_poll oneFreeAllocator oneFreeHeap = (0, oneFreeAllocator, oneFreeHeap) ∧
      (wf_freelist_poll oneFreeAllocator oneFreeHeap).2.1.freelist = 4096 :=
  ⟨rfl, rfl, rfl, rfl⟩

/-- C6: the ALLOCATED block at 4096 has 10 bytes and is followed by a FREE block
of 100 bytes, enough to reach 20 bytes in place; `block_consumable` answers 0
all the same, and `wf_realloc` of payload address 4136 to 20 bytes does not
return that address: it ends in a null-pointer access.  The claim requires the
same address back with the block size set to 20. -/
theorem wf_realloc_grow_in_place_fails :
    growHeap.hdr 4096 = allocatedBlock 0 4146 10 ∧
      growHeap.hdr 4146 = freeBlockAt 4146 4096 0 100 ∧
      20 ≤ (growHeap.hdr 4096).size + (sizeof_MemoryBlock + (growHeap.hdr 4146).size) ∧
      block_consumable growHeap (REF_BLOCK 4136) 20 = 0 ∧
      ∀ junk : MemoryBlock,
        wf_realloc growAllocator growHeap 4136 20 junk = Except.error Fault.nullDeref :=
  ⟨rfl, rfl, by decide, rfl, fun junk => wf_realloc_faults _ _ _ _ junk (by decide)⟩

/-- C9: `IS_BLOCK_AVAILABLE` holds exactly when both availability links are
null, the state the header comment calls not available; so a block that
`BLOCK_MARK_UNAVAILABLE` has just marked is reported as available, and a block
whose links point to itself is not.  The claim requires the opposite test. -/
theorem IS_BLOCK_AVAILABLE_iff_both_links_null :
    (∀ b : MemoryBlock,
        IS_BLOCK_AVAILABLE b = true ↔ (b.available_prev = 0 ∧ b.available_next = 0)) ∧
      (∀ b : MemoryBlock, IS_BLOCK_AVAILABLE (BLOCK_MARK_UNAVAILABLE b) = true) ∧
      IS_BLOCK_AVAILABLE (BLOCK_MARK_UNAVAILABLE (freeBlockAt 4096 0 0 16)) = true ∧
      IS_BLOCK_AVAILABLE (freeBlockAt 4096 0 0 16) = false := by
  refine ⟨fun b => ?_, fun b => ?_, rfl, rfl⟩
  · simp [IS_BLOCK_AVAILABLE]
  · simp [IS_BLOCK_AVAILABLE, BLOCK_MARK_UNAVAILABLE]

/-- C10: for the block at 4152, whose predecessor is the block at 4096, the
snapshot step leaves the uninitialised local as it was, which differs from the
predecessor header; for the block at 4096, which has no predecessor, the
snapshot step copies from the null predecessor pointer.  The claim requires
the predecessor header in the first case and no read in the second. -/
theorem realloc_snapshot_guard_inverted :
    (twoBlockHeap.hdr 4152).adjacent_prev = 4096 ∧
      realloc_snapshot twoBlockHeap 4152 junkHeader = Except.ok junkHeader ∧
      junkHeader ≠ twoBlockHeap.hdr 4096 ∧
      (twoBlockHeap.hdr 4096).adjacent_prev = 0 ∧
      realloc_snapshot twoBlockHeap 4096 junkHeader = Except.error Fault.nullDeref :=
  ⟨rfl, rfl, by decide, rfl, rfl⟩

/-! ## Facts about the test harness -/

theorem extend_heap_loop_result (size actual0 fuel : Nat) :
    extend_heap_loop size (fuel + 2) 0 actual0
      = some (if size < actual0 then 0 else actual0) := by
  by_cases hlt : size < actual0
  · simp [extend_heap_loop, hlt, PAGE_SIZE]
  · simp [extend_heap_loop, hlt]

theorem extend_heap_loop_le (size actual0 fuel : Nat) :
    ∃ actual, extend_heap_loop size (fuel + 2) 0 actual0 = some actual ∧ actual ≤ size := by
  refine ⟨_, extend_heap_loop_result size actual0 fuel, ?_⟩
  by_cases hlt : size < actual0
  · simp [hlt]
  · simp only [hlt, if_false]
    exact Nat.le_of_not_lt hlt

/-! ## The claims on the block primitives, the harness and initialisation -/

/-- C11: `block_merge` returns the null address and changes nothing, whatever
the block: for the block at 4096, which has no predecessor, and for the block
at 4152, whose predecessor is ALLOCATED, the result is not the block itself;
for the block at 4146, whose predecessor at 4096 is FREE, the result is not the
predecessor and the predecessor keeps its 10 bytes.  The claim requires the
block itself in the first two cases and the enlarged predecessor in the
third. -/
theorem block_merge_returns_null :
    (twoBlockHeap.hdr 4096).adjacent_prev = 0 ∧
      block_merge twoBlockHeap 4096 = (0, twoBlockHeap) ∧
      (block_merge twoBlockHeap 4096).1 ≠ 4096 ∧
      twoBlockHeap.hdr 4096 = allocatedBlock 0 4152 16 ∧
      (twoBlockHeap.hdr 4152).adjacent_prev = 4096 ∧
      (block_merge twoBlockHeap 4152).1 ≠ 4152 ∧
      freePredHeap.hdr 4096 = freeBlockAt 4096 0 4146 10 ∧
      freePredHeap.hdr 4146 = allocatedBlock 4096 0 100 ∧
      block_merge freePredHeap 4146 = (0, freePredHeap) ∧
      (block_merge freePredHeap 4146).1 ≠ 4096 ∧
      ((block_merge freePredHeap 4146).2.hdr 4096).size = 10 ∧
      10 + (sizeof_MemoryBlock + 100) ≠ 10 :=
  ⟨rfl, rfl, by decide, rfl, rfl, by decide, rfl, rfl, rfl, by decide, rfl, by decide⟩

/-- C12: for the block of capacity 100 at 4096 and the size 16, the remainder of
84 bytes holds a header of 40 bytes, yet `block_split` returns the null address
and the block keeps its capacity of 100.  The claim requires a residual block
and a target of exactly 16 bytes. -/
theorem block_split_returns_null :
    (wideBlockHeap.hdr 4096).size = 100 ∧
      16 ≤ 100 ∧
      ¬ (100 - 16 < sizeof_MemoryBlock) ∧
      block_split wideBlockHeap 4096 16 = (0, wideBlockHeap) ∧
      ((block_split wideBlockHeap 4096 16).2.hdr 4096).size = 100 ∧
      ((block_split wideBlockHeap 4096 16).2.hdr 4096).adjacent_next = 0 :=
  ⟨rfl, by decide, by decide, rfl, rfl, rfl⟩

/-- C13: with no physical memory handed out yet and a request of 10 bytes,
`extend_heap` returns 5 and advances `physmem_size` by 5 when the uninitialised
local `actual` holds 5, and returns 0 when it holds 0 or 100, although
10 bytes fit into the 65536 bytes of physical memory.  The claim requires a
result of 0 only when the request does not fit, and otherwise a result of at
least the request. -/
theorem extend_heap_grants_less_than_requested :
    freshPhysmem.physmem_size ≤ freshPhysmem.physmem_length ∧
      freshPhysmem.physmem_size + 10 ≤ freshPhysmem.physmem_length ∧
      (∀ fuel, extend_heap (fuel + 2) freshPhysmem 10 5 = some (5, ⟨65536, 5, 0⟩)) ∧
      (∀ fuel, extend_heap (fuel + 2) freshPhysmem 10 0 = some (0, freshPhysmem)) ∧
      (∀ fuel, extend_heap (fuel + 2) freshPhysmem 10 100 = some (0, freshPhysmem)) := by
  refine ⟨by decide, by decide, fun fuel => ?_, fun fuel => ?_, fun fuel => ?_⟩ <;>
    simp [extend_heap, extend_heap_loop_result, freshPhysmem, SIZE_MODULUS]

/-- C14: with the null pointer `wf_realloc` is `wf_malloc`: it returns the same
address and the same allocator and heap, and it does not end in an access
through the null pointer. -/
theorem wf_realloc_null_eq_wf_malloc (a : Allocator) (h : Heap) (new_size : Nat)
    (junk : MemoryBlock) :
    wf_realloc a h 0 new_size junk = wf_malloc a h new_size ∧
      wf_realloc a h 0 new_size junk ≠ Except.error Fault.nullDeref := by
  have heq : wf_realloc a h 0 new_size junk = wf_malloc a h new_size := by
    simp [wf_realloc]
  refine ⟨heq, ?_⟩
  rw [heq, wf_malloc_null]
  exact fun hbad => Except.noConfusion hbad

/-- C15: `wf_allocator_init` leaves the record with `heap` equal to the given
base, `exheap` equal to the given hook, `bound` 0 and a null `freelist`, and its
call log is empty: it calls nothing, the hook included.  On that record the
guard of `wf_malloc` is true for every size, and the call log of `wf_malloc` is
the single call of `wf_exheap_available_block`: the extension branch is taken
and `wf_freelist_poll` is not called. -/
theorem wf_allocator_init_then_wf_malloc_extends (base : Nat) (hook : Nat → Nat)
    (h : Heap) (size : Nat) :
    (wf_allocator_init base hook).heap = base ∧
      (wf_allocator_init base hook).exheap = hook ∧
      (wf_allocator_init base hook).bound = 0 ∧
      (wf_allocator_init base hook).freelist = 0 ∧
      (wf_allocator_init_logged base hook).1 = wf_allocator_init base hook ∧
      (wf_allocator_init_logged base hook).2 = [] ∧
      (∀ n, Call.exheap n ∉ (wf_allocator_init_logged base hook).2) ∧
      malloc_must_extend (wf_allocator_init base hook) h size = Except.ok true ∧
      (wf_malloc_logged (wf_allocator_init base hook) h size).1
        = wf_malloc (wf_allocator_init base hook) h size ∧
      (wf_malloc_logged (wf_allocator_init base hook) h size).2
        = [Call.wf_exheap_available_block size] ∧
      Call.wf_freelist_poll ∉ (wf_malloc_logged (wf_allocator_init base hook) h size).2 := by
  have hlog : (wf_malloc_logged (wf_allocator_init base hook) h size).2
      = [Call.wf_exheap_available_block size] := rfl
  refine ⟨rfl, rfl, rfl, rfl, rfl, rfl, fun n hn => ?_, rfl,
    wf_malloc_logged_fst _ h size, hlog, ?_⟩
  · simp [wf_allocator_init_logged] at hn
  · rw [hlog]
    simp

end WfMalloc
